import Mathlib

/-!
Verification of the ARCTrainer repository's natural-language specification
against a shallow embedding of its Python sources.

The embedding models Python values by the inductive `PyVal` (the JSON-like
fragment the repository manipulates: `None`, booleans, integers, strings,
lists and string-keyed dicts).  Pure functions of the source become Lean
functions over `PyVal`; the Neo4j knowledge graph becomes an explicit
`Graph` state threaded through the operations; external systems (the
dataset directory, the BLIP captioning endpoint, the LLM endpoint) become
an `Env` of oracles; Python exceptions become `Except PyErr`.

Sources embedded here:
  * `src/src/grid.py`                       (`GridManager`)
  * `src/ARC_Trainer/src/task_manager.py`   (`TaskManager`)
  * `src/ARC_Trainer/src/graph_rag.py`      (`GraphRAG.store_ontology`)
  * `src/ARC_Trainer/src/user_feedback.py`  (`UserFeedback.submit_feedback`)
  * `src/ARC_Trainer/src/config.py`         (`Config.ONTOLOGY_DOMAINS`)
  * `src/app.py` and `src/ARC_Trainer/app.py` (`/api/load-arc-task` handlers)

The Python `json` module (`json.dumps` / `json.loads`) is external library
code; it is modelled by an executable serializer and a fuel-based
recursive-descent parser over the same `PyVal` type, restricted to the
fragment the repository actually serializes (no floats; strings without
escape sequences).
-/

set_option maxRecDepth 8192
set_option autoImplicit false

/-- A Python value of the JSON-like fragment handled by the repository. -/
inductive PyVal where
  | none
  | bool (b : Bool)
  | int (n : Int)
  | str (s : String)
  | list (l : List PyVal)
  | dict (d : List (String × PyVal))

mutual

def PyVal.beq : PyVal → PyVal → Bool
  | .none, .none => true
  | .bool a, .bool b => a == b
  | .int a, .int b => a == b
  | .str a, .str b => a == b
  | .list a, .list b => PyVal.beqList a b
  | .dict a, .dict b => PyVal.beqDict a b
  | _, _ => false

def PyVal.beqList : List PyVal → List PyVal → Bool
  | [], [] => true
  | a :: as, b :: bs => PyVal.beq a b && PyVal.beqList as bs
  | _, _ => false

def PyVal.beqDict : List (String × PyVal) → List (String × PyVal) → Bool
  | [], [] => true
  | (k1, v1) :: as, (k2, v2) :: bs => k1 == k2 && PyVal.beq v1 v2 && PyVal.beqDict as bs
  | _, _ => false

end

instance : BEq PyVal := ⟨PyVal.beq⟩

/-- `isinstance(v, list)`. -/
def PyVal.isList : PyVal → Bool
  | .list _ => true
  | _ => false

/-- `isinstance(v, str)`. -/
def PyVal.isStr : PyVal → Bool
  | .str _ => true
  | _ => false

/-- Python `len` on the values it is applied to in `grid.py`
(rows of a validated grid, i.e. lists; also defined on strings and dicts). -/
def pyLen : PyVal → Nat
  | .list l => l.length
  | .str s => s.length
  | .dict d => d.length
  | _ => 0

/-- The cells of a row.  Callers only apply this to values that
`GridManager.validate_grid` has already certified to be lists. -/
def cellsOf : PyVal → List PyVal
  | .list cs => cs
  | _ => []

namespace GridManager

/-- `GridManager.validate_grid` (src/src/grid.py lines 11-34).
A non-list or a list with a non-list member raises `ValueError`; an empty
list raises `IndexError` at `grid[0]`; unequal row lengths raise
`ValueError`.  The broad `except` turns every raise into `False`. -/
def validate_grid (grid : PyVal) : Bool :=
  match grid with
  | .list rows =>
      if rows.all PyVal.isList then
        match rows with
        | [] => false
        | r0 :: _ => rows.all (fun r => pyLen r == pyLen r0)
      else false
  | _ => false

@[simp] theorem validate_grid_nil : validate_grid (.list []) = false := rfl

theorem validate_grid_cons (r0 : PyVal) (rest : List PyVal) :
    validate_grid (.list (r0 :: rest)) =
      ((r0 :: rest).all PyVal.isList &&
        (r0 :: rest).all (fun r => pyLen r == pyLen r0)) := by
  unfold validate_grid
  by_cases h : (r0 :: rest).all PyVal.isList <;> simp [h]

/-- One cell of the `"invert"` transformation:
`1 - cell if isinstance(cell, int) and 0 <= cell <= 1 else cell`.
Python booleans are instances of `int` with values 0 and 1. -/
def invertCell (c : PyVal) : PyVal :=
  match c with
  | .int n => if 0 ≤ n ∧ n ≤ 1 then .int (1 - n) else .int n
  | .bool b => .int (1 - (if b then (1 : Int) else 0))
  | c => c

/-- The spine of Python `zip(*rows)`: truncates at the first exhausted row. -/
def zipStarGo : List PyVal → List (List PyVal) → List (List PyVal)
  | [], _ => []
  | x :: xs, others =>
      if others.all (fun l => !l.isEmpty) then
        (x :: others.map (fun l => l.headD PyVal.none)) ::
          zipStarGo xs (others.map List.tail)
      else []

/-- Python `zip(*rows)` as used by the `"rotate"` branch. -/
def zipStar : List (List PyVal) → List (List PyVal)
  | [] => []
  | xs :: rest => zipStarGo xs rest

/-- `GridManager.transform_grid` (src/src/grid.py lines 36-65).
An invalid grid and an unknown transformation name both raise
`ValueError`, which the broad `except` turns into returning the input
grid unchanged. -/
def transform_grid (grid : PyVal) (transformation : String) : PyVal :=
  if validate_grid grid then
    match grid with
    | .list rows =>
        let rs := rows.map cellsOf
        if transformation = "invert" then
          .list (rs.map (fun r => .list (r.map invertCell)))
        else if transformation = "rotate" then
          .list ((zipStar rs.reverse).map .list)
        else if transformation = "mirror" then
          .list (rs.map (fun r => .list r.reverse))
        else grid
    | _ => grid
  else grid

end GridManager

/-- Embedding of an integer grid (a Python 2D list of ints) into `PyVal`. -/
def intGrid (g : List (List Int)) : PyVal :=
  .list (g.map (fun r => .list (r.map PyVal.int)))

/-- A grid example used in witnesses. -/
def gridEx : List (List Int) := [[0, 1, 0], [1, 0, 1]]

-- ---------------------------------------------------------------------
-- C10 and C9
-- ---------------------------------------------------------------------

/-- C10: `GridManager.validate_grid` applied to the empty list `[]` returns
`False`: the access `grid[0]` raises `IndexError`, the broad `except`
catches it, and the function yields `False` rather than an exception.
Consequently `transform_grid` never treats the empty grid as valid: it
returns it unchanged for every transformation name. -/
theorem C10_validate_grid_empty_false :
    GridManager.validate_grid (.list []) = false ∧
    ∀ t : String, GridManager.transform_grid (.list []) t = .list [] := by
  refine ⟨rfl, fun t => ?_⟩
  simp [GridManager.transform_grid]

theorem validate_shape {rows : List PyVal}
    (h : GridManager.validate_grid (.list rows) = true) :
    rows ≠ [] ∧ ∀ r ∈ rows, r.isList = true := by
  cases rows with
  | nil => simp at h
  | cons r0 rest =>
      rw [GridManager.validate_grid_cons] at h
      refine ⟨by simp, ?_⟩
      have := (Bool.and_eq_true _ _).mp h |>.1
      simpa [List.all_eq_true] using this

theorem validate_mirror {rows : List PyVal}
    (h : GridManager.validate_grid (.list rows) = true) :
    GridManager.validate_grid
      (.list ((rows.map cellsOf).map (fun r => .list r.reverse))) = true := by
  obtain ⟨hne, hlist⟩ := validate_shape h
  cases rows with
  | nil => simp at h
  | cons r0 rest =>
      rw [GridManager.validate_grid_cons] at h
      obtain ⟨hall, hlen⟩ := (Bool.and_eq_true _ _).mp h
      simp only [List.map_cons, GridManager.validate_grid_cons]
      rw [Bool.and_eq_true]
      constructor
      · simp [List.all_eq_true, PyVal.isList]
      · simp only [List.all_eq_true] at hlen ⊢
        intro r hr
        simp only [List.mem_cons, List.mem_map] at hr
        rcases hr with hr | ⟨r', ⟨r'', hr'', rfl⟩, rfl⟩
        · subst hr; simp
        · have hl'' := hlist r'' (List.mem_cons_of_mem _ hr'')
          have hlen'' := hlen r'' (List.mem_cons_of_mem _ hr'')
          have hl0 := hlist r0 (List.mem_cons_self _ _)
          cases r'' with
          | list cs =>
              cases r0 with
              | list cs0 => simpa [pyLen, cellsOf] using hlen''
              | none => simp [PyVal.isList] at hl0
              | bool b => simp [PyVal.isList] at hl0
              | int n => simp [PyVal.isList] at hl0
              | str s => simp [PyVal.isList] at hl0
              | dict d => simp [PyVal.isList] at hl0
          | none => simp [PyVal.isList] at hl''
          | bool b => simp [PyVal.isList] at hl''
          | int n => simp [PyVal.isList] at hl''
          | str s => simp [PyVal.isList] at hl''
          | dict d => simp [PyVal.isList] at hl''

/-- C9: for every grid accepted by `validate_grid`, applying
`transform_grid` with `"mirror"` twice returns the original grid, and for
every invalid grid or unknown transformation name `transform_grid`
returns its input unchanged. -/
theorem C9_mirror_involution :
    (∀ g, GridManager.validate_grid g = true →
      GridManager.transform_grid (GridManager.transform_grid g "mirror") "mirror" = g) ∧
    (∀ g t, GridManager.validate_grid g = false →
      GridManager.transform_grid g t = g) ∧
    (∀ g t, t ≠ "invert" → t ≠ "rotate" → t ≠ "mirror" →
      GridManager.transform_grid g t = g) := by
  refine ⟨?_, ?_, ?_⟩
  · intro g hv
    cases g with
    | list rows =>
        obtain ⟨hne, hlist⟩ := validate_shape hv
        have h1 : GridManager.transform_grid (.list rows) "mirror" =
            .list ((rows.map cellsOf).map (fun r => .list r.reverse)) := by
          simp [GridManager.transform_grid, hv]
        have hv2 := validate_mirror hv
        rw [h1]
        simp only [GridManager.transform_grid, hv2, if_true]
        simp only [List.map_map, Function.comp]
        have key : ∀ r ∈ rows,
            PyVal.list (cellsOf ((fun r => PyVal.list (cellsOf r).reverse) r)).reverse = r := by
          intro r hr
          have := hlist r hr
          cases r with
          | list cs => simp [cellsOf]
          | none => simp [PyVal.isList] at this
          | bool b => simp [PyVal.isList] at this
          | int n => simp [PyVal.isList] at this
          | str s => simp [PyVal.isList] at this
          | dict d => simp [PyVal.isList] at this
        calc PyVal.list (List.map
                (fun x => PyVal.list (cellsOf ((fun r => PyVal.list (cellsOf r).reverse) x)).reverse) rows)
            = PyVal.list (List.map id rows) :=
              congrArg PyVal.list (List.map_congr_left (by simpa using key))
          _ = PyVal.list rows := by simp
    | none => simp [GridManager.validate_grid] at hv
    | bool b => simp [GridManager.validate_grid] at hv
    | int n => simp [GridManager.validate_grid] at hv
    | str s => simp [GridManager.validate_grid] at hv
    | dict d => simp [GridManager.validate_grid] at hv
  · intro g t hv
    simp [GridManager.transform_grid, hv]
  · intro g t h1 h2 h3
    unfold GridManager.transform_grid
    cases g <;> simp [h1, h2, h3]

/-- Witness for C9 at a concrete grid and a concrete unknown
transformation name. -/
theorem C9_mirror_involution_witness :
    GridManager.transform_grid
      (GridManager.transform_grid (intGrid gridEx) "mirror") "mirror" = intGrid gridEx ∧
    GridManager.transform_grid (.int 7) "mirror" = .int 7 ∧
    GridManager.transform_grid (intGrid gridEx) "shuffle" = intGrid gridEx := by
  refine ⟨C9_mirror_involution.1 (intGrid gridEx) (by decide),
          C9_mirror_involution.2.1 (.int 7) "mirror" (by decide),
          C9_mirror_involution.2.2 (intGrid gridEx) "shuffle"
            (by decide) (by decide) (by decide)⟩

-- ---------------------------------------------------------------------
-- The Python `json` module (external library), modelled executably.
-- `json.dumps` with default options renders lists as `[a, b]`; `json.loads`
-- is a recursive-descent parser.  The model is restricted to the fragment
-- the repository serializes: no floats, strings without escape sequences
-- (an input escape makes the parse fail, and `dumps` only needs to escape
-- quote and backslash).
-- ---------------------------------------------------------------------

/-- Decimal digits of a natural number, most significant first. -/
def natToCharsAux (n : Nat) (acc : List Char) : List Char :=
  if n < 10 then Nat.digitChar n :: acc
  else natToCharsAux (n / 10) (Nat.digitChar (n % 10) :: acc)
termination_by n
decreasing_by exact Nat.div_lt_self (by omega) (by omega)

def natToChars (n : Nat) : List Char := natToCharsAux n []

/-- Python `str` of an int (also its JSON rendering). -/
def intToChars (n : Int) : List Char :=
  if n < 0 then '-' :: natToChars n.natAbs else natToChars n.toNat

/-- `json.dumps` escaping for the quote and backslash characters. -/
def escChars (s : List Char) : List Char :=
  s.foldr (fun c acc => if c == '"' || c == '\\' then '\\' :: c :: acc else c :: acc) []

mutual

/-- `json.dumps` (default separators `", "` and `": "`), as a char list. -/
def dumpVal : PyVal → List Char
  | .none => "null".toList
  | .bool b => if b then "true".toList else "false".toList
  | .int n => intToChars n
  | .str s => '"' :: escChars s.toList ++ [ '"' ]
  | .list l => '[' :: dumpList l ++ [ ']' ]
  | .dict d => '\x7b' :: dumpDict d ++ [ '\x7d' ]

def dumpList : List PyVal → List Char
  | [] => []
  | [v] => dumpVal v
  | v :: w :: vs => dumpVal v ++ ',' :: ' ' :: dumpList (w :: vs)

def dumpDict : List (String × PyVal) → List Char
  | [] => []
  | [(k, v)] => '"' :: escChars k.toList ++ '"' :: ':' :: ' ' :: dumpVal v
  | (k, v) :: kv :: kvs =>
      ('"' :: escChars k.toList ++ '"' :: ':' :: ' ' :: dumpVal v) ++
        ',' :: ' ' :: dumpDict (kv :: kvs)

end

/-- `json.dumps` as a string. -/
def json_dumps (v : PyVal) : String := String.mk (dumpVal v)

def isWsChar (c : Char) : Bool := c == ' ' || c == '\n' || c == '\t' || c == '\r'

def skipWs : List Char → List Char
  | [] => []
  | c :: cs => if isWsChar c then skipWs cs else c :: cs

def digitVal (c : Char) : Nat := c.toNat - 48

def parseDigits : List Char → Nat → Nat × List Char
  | [], acc => (acc, [])
  | c :: cs, acc => if c.isDigit then parseDigits cs (acc * 10 + digitVal c) else (acc, c :: cs)

def parseNat : List Char → Option (Nat × List Char)
  | [] => Option.none
  | c :: cs => if c.isDigit then some (parseDigits cs (digitVal c)) else Option.none

/-- String body parser, after the opening quote.  Escape sequences are
outside the modelled fragment and fail. -/
def parseStrChars : List Char → Option (List Char × List Char)
  | [] => Option.none
  | c :: cs =>
      if c == '"' then some ([], cs)
      else if c == '\\' then Option.none
      else (parseStrChars cs).map (fun p => (c :: p.1, p.2))

mutual

/-- `json.loads`, fuel-based recursive descent: one JSON value plus the
remaining input. -/
def parseValue : Nat → List Char → Option (PyVal × List Char)
  | 0, _ => Option.none
  | fuel + 1, cs =>
    match skipWs cs with
    | [] => Option.none
    | c :: rest =>
      if c == '[' then parseArrayRest fuel rest
      else if c == '\x7b' then parseObjRest fuel rest
      else if c == '"' then (parseStrChars rest).map (fun p => (.str (String.mk p.1), p.2))
      else if c == '-' then (parseNat rest).map (fun p => (.int (-(p.1 : Int)), p.2))
      else if c.isDigit then
        match parseDigits rest (digitVal c) with
        | (m, r) => some (.int (m : Int), r)
      else if (c :: rest).take 4 == "null".toList then some (.none, (c :: rest).drop 4)
      else if (c :: rest).take 4 == "true".toList then some (.bool true, (c :: rest).drop 4)
      else if (c :: rest).take 5 == "false".toList then some (.bool false, (c :: rest).drop 5)
      else Option.none

/-- After `[`: either `]` or a first element followed by the tail loop. -/
def parseArrayRest : Nat → List Char → Option (PyVal × List Char)
  | 0, _ => Option.none
  | fuel + 1, cs =>
    match skipWs cs with
    | [] => Option.none
    | c :: rest =>
      if c == ']' then some (.list [], rest)
      else
        match parseValue fuel (c :: rest) with
        | some (v, r) => parseArrayTail fuel [v] r
        | Option.none => Option.none

/-- After an array element: `, value` repeated, then `]`. -/
def parseArrayTail : Nat → List PyVal → List Char → Option (PyVal × List Char)
  | 0, _, _ => Option.none
  | fuel + 1, acc, cs =>
    match skipWs cs with
    | [] => Option.none
    | c :: rest =>
      if c == ',' then
        match parseValue fuel rest with
        | some (v, r) => parseArrayTail fuel (acc ++ [v]) r
        | Option.none => Option.none
      else if c == ']' then some (.list acc, rest)
      else Option.none

/-- After `\x7b`: either `\x7d` or a first `"key": value` field. -/
def parseObjRest : Nat → List Char → Option (PyVal × List Char)
  | 0, _ => Option.none
  | fuel + 1, cs =>
    match skipWs cs with
    | [] => Option.none
    | c :: rest =>
      if c == '\x7d' then some (.dict [], rest)
      else if c == '"' then
        match parseStrChars rest with
        | some (k, r) => parseObjField fuel [] (String.mk k) r
        | Option.none => Option.none
      else Option.none

/-- After an object key: `: value`, then the tail loop. -/
def parseObjField : Nat → List (String × PyVal) → String → List Char →
    Option (PyVal × List Char)
  | 0, _, _, _ => Option.none
  | fuel + 1, acc, k, cs =>
    match skipWs cs with
    | [] => Option.none
    | c :: rest =>
      if c == ':' then
        match parseValue fuel rest with
        | some (v, r) => parseObjTail fuel (acc ++ [(k, v)]) r
        | Option.none => Option.none
      else Option.none

/-- After an object field: `, "key": value` repeated, then `\x7d`. -/
def parseObjTail : Nat → List (String × PyVal) → List Char → Option (PyVal × List Char)
  | 0, _, _ => Option.none
  | fuel + 1, acc, cs =>
    match skipWs cs with
    | [] => Option.none
    | c :: rest =>
      if c == '\x7d' then some (.dict acc, rest)
      else if c == ',' then
        match skipWs rest with
        | [] => Option.none
        | c2 :: r2 =>
          if c2 == '"' then
            match parseStrChars r2 with
            | some (k, r3) => parseObjField fuel acc (String.mk k) r3
            | Option.none => Option.none
          else Option.none
      else Option.none

end

/-- `json.loads`: a full parse with no trailing garbage.  `Option.none` is
Python's `json.JSONDecodeError`.  The fuel exceeds the number of parser
steps possible on the input (each step consumes input or descends past a
bracket), so it never cuts a parse short. -/
def json_loads (s : String) : Option PyVal :=
  match parseValue (2 * s.length + 2) s.toList with
  | some (v, rest) => if skipWs rest = [] then some v else Option.none
  | Option.none => Option.none

-- ---------------------------------------------------------------------
-- Round-trip of `json_loads` after `json_dumps` on the integer-grid
-- fragment (the values `GridManager.to_json` serializes).
-- ---------------------------------------------------------------------

/-- The input's first character, if any, is not a decimal digit. -/
def NotDigitHead : List Char → Prop
  | [] => True
  | c :: _ => c.isDigit = false

theorem skipWs_cons_not_ws {c : Char} (h : isWsChar c = false) (cs : List Char) :
    skipWs (c :: cs) = c :: cs := by
  simp [skipWs, h]

theorem digitChar_isDigit {d : Nat} (h : d < 10) : (Nat.digitChar d).isDigit = true := by
  interval_cases d <;> decide

theorem digitVal_digitChar {d : Nat} (h : d < 10) : digitVal (Nat.digitChar d) = d := by
  interval_cases d <;> decide

theorem isDigit_not_special {c : Char} (h : c.isDigit = true) :
    isWsChar c = false ∧ (c == '[') = false ∧ (c == '\x7b') = false ∧
      (c == '"') = false ∧ (c == '-') = false ∧ (c == ']') = false ∧ (c == ',') = false := by
  have hne : ∀ x : Char, x.isDigit = false → (c == x) = false := by
    intro x hx
    by_cases hcx : c = x
    · subst hcx
      rw [hx] at h
      exact absurd h (by simp)
    · exact beq_eq_false_iff_ne.mpr hcx
  refine ⟨?_, hne _ (by decide), hne _ (by decide), hne _ (by decide),
    hne _ (by decide), hne _ (by decide), hne _ (by decide)⟩
  unfold isWsChar
  rw [hne _ (by decide), hne _ (by decide), hne _ (by decide), hne _ (by decide)]
  rfl

theorem parseDigits_append (ds : List Char) (hds : ∀ c ∈ ds, c.isDigit = true) :
    ∀ rest, NotDigitHead rest → ∀ acc,
      parseDigits (ds ++ rest) acc =
        (ds.foldl (fun a c => a * 10 + digitVal c) acc, rest) := by
  induction ds with
  | nil =>
      intro rest h acc
      cases rest with
      | nil => rfl
      | cons c cs =>
          have h' : c.isDigit = false := h
          simp [parseDigits, h']
  | cons d ds ih =>
      intro rest h acc
      simp only [List.cons_append, parseDigits, hds d (List.mem_cons_self _ _), if_true,
        List.foldl_cons]
      exact ih (fun c hc => hds c (List.mem_cons_of_mem _ hc)) rest h _

theorem foldl_digits_eq (L : List Nat) (hL : ∀ d ∈ L, d < 10) :
    ∀ a : Nat, ((L.reverse.map Nat.digitChar).foldl (fun x c => x * 10 + digitVal c) a) =
      a * 10 ^ L.length + Nat.ofDigits 10 L := by
  induction L with
  | nil => intro a; simp
  | cons d L ih =>
      intro a
      rw [List.reverse_cons, List.map_append, List.foldl_append,
        ih (fun x hx => hL x (List.mem_cons_of_mem _ hx)) a]
      simp only [List.map_cons, List.map_nil, List.foldl_cons, List.foldl_nil]
      rw [digitVal_digitChar (hL d (List.mem_cons_self _ _))]
      rw [Nat.ofDigits_cons]
      simp only [List.length_cons, pow_succ]
      ring

theorem natToCharsAux_spec :
    ∀ n : Nat, 0 < n → ∀ acc,
      natToCharsAux n acc = (Nat.digits 10 n).reverse.map Nat.digitChar ++ acc := by
  intro n
  induction n using Nat.strong_induction_on with
  | _ n ih =>
    intro hn acc
    rw [natToCharsAux]
    by_cases h : n < 10
    · simp only [if_pos h]
      rw [Nat.digits_def' (by norm_num : (1 : Nat) < 10) hn]
      have h1 : n / 10 = 0 := Nat.div_eq_of_lt h
      have h2 : n % 10 = n := Nat.mod_eq_of_lt h
      simp [h1, h2]
    · simp only [if_neg h]
      have hdiv : 0 < n / 10 := Nat.div_pos (by omega) (by norm_num)
      rw [ih (n / 10) (Nat.div_lt_self hn (by norm_num)) hdiv]
      rw [Nat.digits_def' (by norm_num : (1 : Nat) < 10) hn]
      simp

theorem natToChars_spec (n : Nat) :
    ((natToChars n).foldl (fun a c => a * 10 + digitVal c) 0 = n) ∧
      (∀ c ∈ natToChars n, c.isDigit = true) ∧ natToChars n ≠ [] := by
  rcases Nat.eq_zero_or_pos n with rfl | hn
  · have h0 : natToChars 0 = [ '0' ] := by rw [natToChars, natToCharsAux]; rfl
    rw [h0]
    refine ⟨by decide, ?_, by decide⟩
    intro c hc
    simp at hc
    subst hc
    decide
  · have hs := natToCharsAux_spec n hn []
    unfold natToChars
    rw [hs, List.append_nil]
    refine ⟨?_, ?_, ?_⟩
    · rw [foldl_digits_eq _ (fun d hd => Nat.digits_lt_base (by norm_num) hd) 0]
      simp [Nat.ofDigits_digits]
    · intro c hc
      obtain ⟨d, hd, rfl⟩ := List.mem_map.mp hc
      exact digitChar_isDigit (Nat.digits_lt_base (by norm_num) (List.mem_reverse.mp hd))
    · simp [Nat.digits_ne_nil_iff_ne_zero, hn.ne']

theorem parseNat_natToChars (n : Nat) (rest : List Char) (h : NotDigitHead rest) :
    parseNat (natToChars n ++ rest) = some (n, rest) := by
  obtain ⟨hfold, hdig, hne⟩ := natToChars_spec n
  obtain ⟨c, ds, hcd⟩ := List.exists_cons_of_ne_nil hne
  rw [hcd] at hfold hdig ⊢
  simp only [List.cons_append, parseNat, hdig c (List.mem_cons_self _ _), if_true]
  rw [parseDigits_append ds (fun x hx => hdig x (List.mem_cons_of_mem _ hx)) rest h]
  simpa using hfold

/-- The JSON fragment `GridManager.to_json` serializes: integers nested in
lists (in particular every 2D integer grid). -/
inductive JFrag : PyVal → Prop
  | int (n : Int) : JFrag (.int n)
  | list (l : List PyVal) (h : ∀ v ∈ l, JFrag v) : JFrag (.list l)

mutual

/-- Fuel sufficient to parse a rendered value (counts parser call steps). -/
def jcost : PyVal → Nat
  | .list l => 2 + jcostList l
  | _ => 1

def jcostList : List PyVal → Nat
  | [] => 0
  | v :: vs => 1 + jcost v + jcostList vs

end

/-- The rendering of the elements after the first one: `", v"` repeated. -/
def tailChars : List PyVal → List Char
  | [] => []
  | e :: es => ',' :: ' ' :: (dumpVal e ++ tailChars es)

theorem dumpList_cons_eq (e : PyVal) (es : List PyVal) :
    dumpList (e :: es) = dumpVal e ++ tailChars es := by
  induction es generalizing e with
  | nil => simp [dumpList, tailChars]
  | cons x xs ih =>
      rw [dumpList, ih x, tailChars]

theorem parseValue_ws_cons (fuel : Nat) {c : Char} (h : isWsChar c = true) (cs : List Char) :
    parseValue fuel (c :: cs) = parseValue fuel cs := by
  cases fuel with
  | zero => rfl
  | succ f =>
      have hskip : skipWs (c :: cs) = skipWs cs := by simp [skipWs, h]
      rw [parseValue, parseValue, hskip]

theorem notDigitHead_tail (es : List PyVal) (rest : List Char) :
    NotDigitHead (tailChars es ++ ']' :: rest) := by
  cases es with
  | nil => show (']').isDigit = false; decide
  | cons e es => show (',').isDigit = false; decide

theorem parseValue_intChars (n : Int) (fuel : Nat) (hf : 1 ≤ fuel) (rest : List Char)
    (h : NotDigitHead rest) :
    parseValue fuel (intToChars n ++ rest) = some (.int n, rest) := by
  obtain ⟨f, rfl⟩ : ∃ f, fuel = f + 1 := ⟨fuel - 1, by omega⟩
  unfold intToChars
  by_cases hneg : n < 0
  · simp only [if_pos hneg, List.cons_append]
    rw [parseValue, skipWs_cons_not_ws (by decide)]
    simp only [show ('-' == '[') = false from by decide, show ('-' == '\x7b') = false from by decide,
      show ('-' == '"') = false from by decide, show ('-' == '-') = true from by decide,
      Bool.false_eq_true, if_false, if_true]
    rw [parseNat_natToChars n.natAbs rest h]
    simp only [Option.map_some']
    have hn : (-(n.natAbs : Int)) = n := by omega
    rw [hn]
  · simp only [if_neg hneg]
    obtain ⟨hfold, hdig, hne⟩ := natToChars_spec n.toNat
    obtain ⟨c, ds, hcd⟩ := List.exists_cons_of_ne_nil hne
    have hc : c.isDigit = true := by
      rw [hcd] at hdig
      exact hdig c (List.mem_cons_self _ _)
    obtain ⟨hws, h1, h2, h3, h4, _, _⟩ := isDigit_not_special hc
    have hpn := parseNat_natToChars n.toNat rest h
    rw [hcd] at hpn ⊢
    simp only [List.cons_append, parseNat, hc, if_true] at hpn
    have hpd : parseDigits (ds ++ rest) (digitVal c) = (n.toNat, rest) := by
      exact Option.some.inj hpn
    rw [parseValue, List.cons_append, skipWs_cons_not_ws hws]
    simp only [h1, h2, h3, h4, hc, Bool.false_eq_true, if_false, if_true]
    rw [hpd]
    have hn : ((n.toNat : Int)) = n := by omega
    rw [hn]

theorem dumpVal_list (l : List PyVal) : dumpVal (.list l) = '[' :: (dumpList l ++ [ ']' ]) := by
  rw [dumpVal]
  simp

theorem dumpVal_head {v : PyVal} (hv : JFrag v) :
    ∃ c cs, dumpVal v = c :: cs ∧ isWsChar c = false ∧ (c == ']') = false := by
  cases hv with
  | int n =>
      rw [show dumpVal (.int n) = intToChars n from by rw [dumpVal]]
      unfold intToChars
      by_cases hneg : n < 0
      · exact ⟨'-', _, by rw [if_pos hneg], by decide, by decide⟩
      · obtain ⟨_, hdig, hne⟩ := natToChars_spec n.toNat
        obtain ⟨c, ds, hcd⟩ := List.exists_cons_of_ne_nil hne
        have hc := hdig c (by rw [hcd]; exact List.mem_cons_self _ _)
        obtain ⟨hws, _, _, _, _, hbr, _⟩ := isDigit_not_special hc
        exact ⟨c, ds, by rw [if_neg hneg, hcd], hws, hbr⟩
  | list l hmem =>
      exact ⟨'[', _, dumpVal_list l, by decide, by decide⟩

theorem parseArrayTail_spec (es : List PyVal)
    (helem : ∀ e ∈ es, ∀ fuel rest, jcost e ≤ fuel → NotDigitHead rest →
        parseValue fuel (dumpVal e ++ rest) = some (e, rest)) :
    ∀ fuel acc rest, 1 + jcostList es ≤ fuel → NotDigitHead rest →
      parseArrayTail fuel acc (tailChars es ++ ']' :: rest) = some (.list (acc ++ es), rest) := by
  induction es with
  | nil =>
      intro fuel acc rest hf h
      obtain ⟨f, rfl⟩ : ∃ f, fuel = f + 1 := ⟨fuel - 1, by omega⟩
      rw [tailChars]
      simp only [List.nil_append]
      rw [parseArrayTail, skipWs_cons_not_ws (by decide)]
      simp only [show (']' == ',') = false from by decide,
        show (']' == ']') = true from by decide, Bool.false_eq_true, if_false, if_true,
        List.append_nil]
  | cons e es ih =>
      intro fuel acc rest hf h
      have hcost : 1 + (1 + jcost e + jcostList es) ≤ fuel := by
        simpa [jcostList] using hf
      obtain ⟨f, rfl⟩ : ∃ f, fuel = f + 1 := ⟨fuel - 1, by omega⟩
      rw [tailChars]
      simp only [List.cons_append]
      rw [parseArrayTail, skipWs_cons_not_ws (by decide)]
      simp only [show (',' == ',') = true from by decide, if_true]
      rw [List.append_assoc]
      rw [parseValue_ws_cons f (by decide)]
      rw [helem e (List.mem_cons_self _ _) f _ (by omega) (notDigitHead_tail es rest)]
      show parseArrayTail f (acc ++ [e]) (tailChars es ++ ']' :: rest) = _
      rw [ih (fun x hx => helem x (List.mem_cons_of_mem _ hx)) f (acc ++ [e]) rest (by omega) h]
      simp

theorem parseValue_dumpVal {v : PyVal} (hv : JFrag v) :
    ∀ fuel rest, jcost v ≤ fuel → NotDigitHead rest →
      parseValue fuel (dumpVal v ++ rest) = some (v, rest) := by
  induction hv with
  | int n =>
      intro fuel rest hf h
      exact parseValue_intChars n fuel (by simpa [jcost] using hf) rest h
  | list l hmem ih =>
      intro fuel rest hf h
      have h2 : 2 + jcostList l ≤ fuel := by simpa [jcost] using hf
      obtain ⟨f, rfl⟩ : ∃ f, fuel = f + 1 := ⟨fuel - 1, by omega⟩
      rw [dumpVal_list]
      simp only [List.cons_append]
      rw [parseValue, skipWs_cons_not_ws (by decide)]
      simp only [show ('[' == '[') = true from by decide, if_true]
      rw [List.append_assoc]
      cases l with
      | nil =>
          rw [show dumpList [] = ([] : List Char) from by rw [dumpList]]
          simp only [List.nil_append, List.singleton_append]
          obtain ⟨f2, rfl⟩ : ∃ f2, f = f2 + 1 := ⟨f - 1, by omega⟩
          rw [parseArrayRest, skipWs_cons_not_ws (by decide)]
          simp only [show (']' == ']') = true from by decide, if_true]
      | cons e es =>
          rw [dumpList_cons_eq]
          have hcl : jcostList (e :: es) = 1 + jcost e + jcostList es := by rw [jcostList]
          obtain ⟨f2, rfl⟩ : ∃ f2, f = f2 + 1 := ⟨f - 1, by omega⟩
          obtain ⟨c, cs, hdc, hws, hbr⟩ := dumpVal_head (hmem e (List.mem_cons_self _ _))
          rw [List.singleton_append, List.append_assoc, hdc]
          simp only [List.cons_append]
          rw [parseArrayRest, skipWs_cons_not_ws hws]
          simp only [hbr, Bool.false_eq_true, if_false]
          rw [← List.cons_append, ← hdc]
          rw [ih e (List.mem_cons_self _ _) f2 (tailChars es ++ ']' :: rest)
            (by omega) (notDigitHead_tail es rest)]
          show parseArrayTail f2 [e] (tailChars es ++ ']' :: rest) = _
          rw [parseArrayTail_spec es (fun x hx => ih x (List.mem_cons_of_mem _ hx)) f2 [e] rest
            (by omega) h]
          simp

theorem jcostList_le_aux (es : List PyVal)
    (h : ∀ e ∈ es, jcost e ≤ 2 * (dumpVal e).length + 2) :
    jcostList es ≤ 2 * (tailChars es).length + 1 := by
  induction es with
  | nil => rw [jcostList]; omega
  | cons e es ih =>
      have h1 := h e (List.mem_cons_self _ _)
      have h2 := ih (fun x hx => h x (List.mem_cons_of_mem _ hx))
      rw [jcostList, tailChars]
      simp only [List.length_cons, List.length_append]
      omega

theorem jcost_le_len {v : PyVal} (hv : JFrag v) :
    jcost v ≤ 2 * (dumpVal v).length + 2 := by
  induction hv with
  | int n =>
      have h1 : jcost (.int n) = 1 := by
        rw [jcost]
        intro l h
        exact PyVal.noConfusion h
      omega
  | list l hmem ih =>
      cases l with
      | nil =>
          rw [jcost, jcostList, dumpVal_list, show dumpList [] = ([] : List Char)
            from by rw [dumpList]]
          simp
      | cons e es =>
          have h1 := ih e (List.mem_cons_self _ _)
          have h2 := jcostList_le_aux es (fun x hx => ih x (List.mem_cons_of_mem _ hx))
          rw [jcost, jcostList, dumpVal_list, dumpList_cons_eq]
          simp only [List.length_cons, List.length_append, List.length_singleton]
          omega

/-- `json.loads (json.dumps v) = v` on the serialized fragment. -/
theorem json_roundtrip_frag {v : PyVal} (hv : JFrag v) :
    json_loads (json_dumps v) = some v := by
  unfold json_loads json_dumps
  have hlist : (String.mk (dumpVal v)).toList = dumpVal v := rfl
  have hlen : (String.mk (dumpVal v)).length = (dumpVal v).length := rfl
  rw [hlist, hlen]
  have hp := parseValue_dumpVal hv (2 * (dumpVal v).length + 2) []
    (le_trans (jcost_le_len hv) (by omega)) trivial
  rw [List.append_nil] at hp
  rw [hp]
  rfl

/-- `JFrag` holds for every embedded integer grid. -/
theorem jfrag_intGrid (g : List (List Int)) : JFrag (intGrid g) := by
  refine JFrag.list _ ?_
  intro v hv
  simp only [intGrid, List.mem_map] at hv
  obtain ⟨r, _, rfl⟩ := hv
  refine JFrag.list _ ?_
  intro w hw
  simp only [List.mem_map] at hw
  obtain ⟨n, _, rfl⟩ := hw
  exact JFrag.int n

namespace GridManager

/-- `GridManager.to_json` (src/src/grid.py lines 67-83): `json.dumps(grid)`.
`dumps` only raises for non-serializable objects, and every modelled value
is serializable, so the `except` branch (returning `"\x7b\x7d"`) is dead here. -/
def to_json (grid : PyVal) : String := json_dumps grid

/-- `GridManager.from_json` (src/src/grid.py lines 85-104): `json.loads`,
then `validate_grid`; a decode error or failed validation raises, and the
broad `except` returns `[]`. -/
def from_json (grid_json : String) : PyVal :=
  match json_loads grid_json with
  | some grid => if validate_grid grid then grid else .list []
  | Option.none => .list []

end GridManager

/-- C8: for every valid integer grid `g` (`validate_grid` returns `True`),
`GridManager.from_json (GridManager.to_json g)` returns `g` itself. -/
theorem C8_to_json_from_json_roundtrip (g : List (List Int))
    (h : GridManager.validate_grid (intGrid g) = true) :
    GridManager.from_json (GridManager.to_json (intGrid g)) = intGrid g := by
  unfold GridManager.from_json GridManager.to_json
  rw [json_roundtrip_frag (jfrag_intGrid g)]
  simp [h]

/-- Witness for C8 at a concrete grid. -/
theorem C8_to_json_from_json_roundtrip_witness :
    GridManager.validate_grid (intGrid gridEx) = true ∧
    GridManager.from_json (GridManager.to_json (intGrid gridEx)) = intGrid gridEx :=
  ⟨by decide, C8_to_json_from_json_roundtrip gridEx (by decide)⟩

-- ---------------------------------------------------------------------
-- The TaskManager pipeline (src/ARC_Trainer/src/task_manager.py), the two
-- Flask `/api/load-arc-task` handlers, GraphRAG and UserFeedback.
-- External systems are an `Env` of oracles; the Neo4j store is a `Graph`
-- threaded explicitly; Python exceptions are `Except PyErr`.
-- ---------------------------------------------------------------------

/-- The Python exceptions the embedded code can raise. -/
inductive PyErr where
  | nameError (missing_name : String)
  | attributeError (missing_attr : String)
  | jsonDecodeError

/-- One ARC example: an input grid and an output grid. -/
structure ArcPair where
  input : List (List Int)
  output : List (List Int)

/-- A well-formed ARC puzzle file: a JSON dict with `train` and `test`
lists of examples (exactly what `validate_task_data` accepts). -/
structure PuzzleData where
  train : List ArcPair
  test : List ArcPair

/-- What the dataset directory holds for a task name: no file, a file that
fails `json.load`/`validate_task_data`, or a well-formed puzzle. -/
inductive FileEntry where
  | missing
  | invalid
  | good (p : PuzzleData)

/-- The external world: the dataset directory, whether the BLIP endpoint
is configured (`HF_BLIP_ENDPOINT`/`HF_BEARER_TOKEN` both non-empty), and
the LLM endpoint (`query_llm`'s resulting dict per prompt).  No oracle
for the BLIP endpoint itself is needed: the request to it is unreachable
(see `TaskManager.maybe_call_blip`). -/
structure Env where
  dataset : String → FileEntry
  blipConfigured : Bool
  llm : String → List (String × PyVal)

/-- A node of the Neo4j knowledge graph. -/
structure Node where
  nid : Nat
  label : String
  props : List (String × PyVal)

/-- A relationship of the knowledge graph. -/
structure Edge where
  src : Nat
  rtype : String
  dst : Nat

/-- The knowledge-graph state (`nextId` supplies fresh node ids). -/
structure Graph where
  nodes : List Node
  edges : List Edge
  nextId : Nat

def Graph.empty : Graph := { nodes := [], edges := [], nextId := 0 }

/-- Cypher `SET n.k = v`: update or add one property. -/
def propsSet (ps : List (String × PyVal)) (k : String) (v : PyVal) : List (String × PyVal) :=
  if ps.any (fun kv => kv.1 == k) then ps.map (fun kv => if kv.1 == k then (k, v) else kv)
  else ps ++ [(k, v)]

/-- Does a node match `(t:Task \x7bname: $name\x7d)`? -/
def isTaskNamed (n : Node) (name : String) : Bool :=
  n.label == "Task" &&
    (match n.props.lookup "name" with
     | some v => v == PyVal.str name
     | Option.none => false)

def errorDict (msg : String) : PyVal := .dict [("error", .str msg)]

def pyOfPair (ex : ArcPair) : PyVal :=
  .dict [("input", intGrid ex.input), ("output", intGrid ex.output)]

def pyOfPairs (l : List ArcPair) : PyVal := .list (l.map pyOfPair)

/-- The puzzle file's JSON content (`{"train": ..., "test": ...}`). -/
def pyOfPuzzle (p : PuzzleData) : PyVal :=
  .dict [("train", pyOfPairs p.train), ("test", pyOfPairs p.test)]

/-- The keys of a JSON object body (its shape). -/
def pyKeys : PyVal → List String
  | .dict d => d.map Prod.fst
  | _ => []

/-- Python `enumerate` fused with a loop body that can raise: the first
raising iteration propagates its exception. -/
def enumMapFromE {α β : Type} (i : Nat) (f : Nat → α → Except PyErr β) :
    List α → Except PyErr (List β)
  | [] => .ok []
  | a :: l =>
      match f i a with
      | .error e => .error e
      | .ok b =>
          match enumMapFromE (i + 1) f l with
          | .error e => .error e
          | .ok bs => .ok (b :: bs)

/-- Python `sorted(set(l))` for ints. -/
def sortedInsertND (x : Int) : List Int → List Int
  | [] => [x]
  | y :: ys => if x < y then x :: y :: ys else if x = y then y :: ys else y :: sortedInsertND x ys

def sortedUnique (l : List Int) : List Int := l.foldr sortedInsertND []

/-- Python `str` of a list of ints, e.g. `[1, 2]`. -/
def listIntRepr (l : List Int) : String :=
  "[" ++ String.intercalate ", " (l.map toString) ++ "]"

/-- `max(len(r) for r in grid)` (callers guarantee a non-empty grid). -/
def maxRowLen (g : List (List Int)) : Nat := (g.map List.length).foldl Nat.max 0

namespace TaskManager

/-- The module-level names bound by task_manager.py's import section
(lines 1-19).  Note it does NOT import `re` or `base64`. -/
def importedNames : List String :=
  ["os", "json", "random", "uuid", "Path", "current_app", "send_file", "jsonify",
   "logger", "GraphDatabase", "Image", "ImageDraw", "requests", "LLMClient",
   "PrologRuleGenerator", "LearningAgent", "load_dotenv"]

/-- `TaskManager.parse_llm_guess` (lines 233-273).  An empty or non-string
reply returns the fixed message; a reply that parses as a JSON list is
returned; otherwise the code reaches `re.search(...)` (line 258), whose
evaluation of the global name `re` raises `NameError` because
task_manager.py never imports `re` (see `importedNames`), so the
documented regex fallback and raw-text fallback are unreachable. -/
def parse_llm_guess (llm_response : PyVal) : Except PyErr PyVal :=
  match llm_response with
  | .str s =>
      if s.isEmpty then .ok (.str "LLM response was empty or not in expected format.")
      else
        match json_loads s with
        | some guess =>
            if guess.isList then .ok guess
            else .error (.nameError "re")
        | Option.none => .error (.nameError "re")
  | _ => .ok (.str "LLM response was empty or not in expected format.")

/-- `TaskManager.init_puzzle_in_kg` (lines 278-291): `MATCH (t:Task
\x7bname\x7d)`, and `CREATE (t:Task \x7bname, domain: 'arc'\x7d)` when absent.  The
puzzle data argument is unused by the source. -/
def init_puzzle_in_kg (g : Graph) (task_name : String) (_puzzle_data : PuzzleData) : Graph :=
  if g.nodes.any (fun n => isTaskNamed n task_name) then g
  else
    { nodes := g.nodes ++
        [{ nid := g.nextId, label := "Task",
           props := [("name", .str task_name), ("domain", .str "arc")] }],
      edges := g.edges, nextId := g.nextId + 1 }

/-- `TaskManager.log_llm_solution` (lines 521-548): `MERGE` the Task by
name and `SET` `llm_text`/`success`; on failure additionally `MERGE` a
fresh `Counterexample` (uuid4 modelled by the fresh-id counter) and link
each matched Task to it. -/
def log_llm_solution (g : Graph) (task_name : String) (llm_text : PyVal) (success : Bool) :
    Graph :=
  let g1 : Graph :=
    if g.nodes.any (fun n => isTaskNamed n task_name) then
      { g with nodes := g.nodes.map (fun n =>
          if isTaskNamed n task_name then
            { n with props :=
                propsSet (propsSet n.props "llm_text" llm_text) "success" (.bool success) }
          else n) }
    else
      { nodes := g.nodes ++
          [{ nid := g.nextId, label := "Task",
             props := [("name", .str task_name), ("llm_text", llm_text),
               ("success", .bool success)] }],
        edges := g.edges, nextId := g.nextId + 1 }
  if success then g1
  else
    let cid : String := "uuid-" ++ toString g1.nextId
    let tasks := g1.nodes.filter (fun n => isTaskNamed n task_name)
    if tasks.isEmpty then g1
    else
      let cnode : Node :=
        { nid := g1.nextId, label := "Counterexample",
          props := [("id", .str cid), ("llm_text", llm_text)] }
      { nodes := g1.nodes ++ [cnode],
        edges := g1.edges ++ tasks.map (fun t =>
          { src := t.nid, rtype := "HAS_COUNTEREXAMPLE", dst := cnode.nid }),
        nextId := g1.nextId + 1 }

/-- Structured grid description (`extract_grid_details`' result dict). -/
structure GridDetails where
  size : String
  colors : List Int
  details : String

/-- `TaskManager.extract_grid_details` (lines 97-119). -/
def extract_grid_details (grid : List (List Int)) (blip_desc : String) : GridDetails :=
  if grid.isEmpty then
    { size := "Unknown", colors := [], details := "No grid data available" }
  else
    { size := toString grid.length ++ "x" ++ toString (maxRowLen grid),
      colors := sortedUnique grid.flatten,
      details := if blip_desc.isEmpty then "No BLIP description available" else blip_desc }

/-- `TaskManager.generate_png` (lines 373-413): returns the saved image
path, or `None` for an empty grid.  The drawing itself has no effect on
anything the claims mention beyond the file's existence. -/
def generate_png (task_name : String) (grid : List (List Int)) (label : String) :
    Option String :=
  if grid.isEmpty then Option.none
  else some (task_name ++ "_" ++ label ++ ".png")

/-- `TaskManager._maybe_call_blip` (lines 464-477) together with
`call_blip_on_image` (lines 415-463).  A missing file or missing
configuration short-circuits to a fixed string.  Otherwise
`call_blip_on_image` runs: its own configuration and existence checks
pass, and `base64.b64encode(img_file.read())` (line 431) evaluates the
global name `base64`, which task_manager.py never imports (see
`importedNames`), raising `NameError`; the `except` at line 461 catches
only `requests.exceptions.RequestException`, so the error propagates and
the external BLIP endpoint is never actually reached. -/
def maybe_call_blip (env : Env) (file_path : Option String) : Except PyErr String :=
  match file_path with
  | Option.none => .ok "No image found for description."
  | some _ =>
      if env.blipConfigured then .error (.nameError "base64")
      else .ok "BLIP not configured."

structure TrainDesc where
  index : Nat
  input_desc : GridDetails
  output_desc : GridDetails

structure TestDesc where
  index : Nat
  input_desc : GridDetails
  real_output_grid : List (List Int)

def trainDescStr (td : TrainDesc) : String :=
  "Example " ++ toString td.index ++ ":\n" ++
  "  - Input Grid Size: " ++ td.input_desc.size ++ "\n" ++
  "  - Colors Present: " ++ listIntRepr td.input_desc.colors ++ "\n" ++
  "  - BLIP Description: " ++ td.input_desc.details ++ "\n" ++
  "  - Output Grid Size: " ++ td.output_desc.size ++ "\n" ++
  "  - Colors Present: " ++ listIntRepr td.output_desc.colors ++ "\n" ++
  "  - BLIP Description: " ++ td.output_desc.details ++ "\n\n"

def testDescStr (ttd : TestDesc) : String :=
  "Example " ++ toString ttd.index ++ ":\n" ++
  "  - Input Grid Size: " ++ ttd.input_desc.size ++ "\n" ++
  "  - Colors Present: " ++ listIntRepr ttd.input_desc.colors ++ "\n" ++
  "  - BLIP Description: " ++ ttd.input_desc.details ++ "\n\n"

/-- `TaskManager.build_llm_prompt` (lines 479-519): the f-string prompt,
followed by `.strip()`. -/
def build_llm_prompt (task_name : String) (train_descs : List TrainDesc)
    (test_descs : List TestDesc) : String :=
  let train_str := "Training Examples:\n" ++ String.join (train_descs.map trainDescStr)
  let test_str := "Test Examples:\n" ++ String.join (test_descs.map testDescStr)
  ("\n        [System note: Analyze the puzzle logically. Assume you see the grids based on their descriptions.]" ++
   "\n        " ++
   "\n        You have an ARC puzzle named \x27" ++ task_name ++ "\x27." ++
   "\n        Below are training examples, each with:" ++
   "\n        - Grid size" ++
   "\n        - Unique colors used" ++
   "\n        - BLIP-generated description (if available)" ++
   "\n        " ++
   "\n        " ++ train_str ++
   "\n        " ++ test_str ++
   "\n        " ++
   "\n        **Your Goal:** " ++
   "\n        1. Identify key transformations or rules from the training examples." ++
   "\n        2. Discuss potential patterns that could apply to the test examples." ++
   "\n        3. Predict the expected test output using logical reasoning." ++
   "\n        " ++
   "\n        Structure your response clearly, step by step, and explain your thought process thoroughly." ++
   "\n        ").trim

/-- Step 6 of `_process_full_puzzle_flow` (lines 206-214): parse the LLM
reply, then call `self.compare_grids(predicted_output, real_output)`.
`TaskManager` defines no `compare_grids` attribute anywhere in the
repository, so when `parse_llm_guess` returns, the attribute lookup
raises `AttributeError` and no comparison ever happens. -/
def compare_success (raw_llm_text : PyVal) : Except PyErr Bool :=
  match parse_llm_guess raw_llm_text with
  | .error e => .error e
  | .ok _predicted_output => .error (.attributeError "compare_grids")

/-- One iteration of the training-example loop of
`_process_full_puzzle_flow` (lines 155-172): generate the two PNGs, then
call BLIP on each; a raising BLIP call (configured BLIP, see
`maybe_call_blip`) propagates. -/
def trainStep (env : Env) (puzzle_name : String) (i : Nat) (ex : ArcPair) :
    Except PyErr (List String × TrainDesc) :=
  let in_fn := generate_png puzzle_name ex.input ("train_input_" ++ toString i)
  let out_fn := generate_png puzzle_name ex.output ("train_output_" ++ toString i)
  match maybe_call_blip env in_fn with
  | .error e => .error e
  | .ok desc_in =>
      match maybe_call_blip env out_fn with
      | .error e => .error e
      | .ok desc_out =>
          .ok ([in_fn, out_fn].filterMap id,
            { index := i, input_desc := extract_grid_details ex.input desc_in,
              output_desc := extract_grid_details ex.output desc_out })

/-- One iteration of the test-example loop of `_process_full_puzzle_flow`
(lines 175-190). -/
def testStep (env : Env) (puzzle_name : String) (j : Nat) (ex : ArcPair) :
    Except PyErr (List String × TestDesc) :=
  let in_fn := generate_png puzzle_name ex.input ("test_input_" ++ toString j)
  match maybe_call_blip env in_fn with
  | .error e => .error e
  | .ok desc_in =>
      .ok ([in_fn].filterMap id,
        { index := j, input_desc := extract_grid_details ex.input desc_in,
          real_output_grid := ex.output })

/-- `TaskManager._process_full_puzzle_flow` (lines 121-230).  Only the
load step is inside a `try/except`; an exception in the training loop,
the test loop, the parse or the comparison propagates. -/
def process_full_puzzle_flow (env : Env) (g : Graph) (imgs : List String)
    (puzzle_name : String) : Except PyErr ((PyVal × Nat) × Graph × List String) :=
  match env.dataset puzzle_name with
  | .missing =>
      .ok ((errorDict ("Task \x27" ++ puzzle_name ++ "\x27 not found in dataset"), 404), g, imgs)
  | .invalid =>
      .ok ((errorDict ("Invalid JSON format in \x27" ++ puzzle_name ++ "\x27"), 500), g, imgs)
  | .good p =>
      let g1 := init_puzzle_in_kg g puzzle_name p
      match enumMapFromE 0 (trainStep env puzzle_name) p.train with
      | .error e => .error e
      | .ok trainResults =>
          let imgs1 := imgs ++ (trainResults.map Prod.fst).flatten
          let train_descriptions := trainResults.map Prod.snd
          match enumMapFromE 0 (testStep env puzzle_name) p.test with
          | .error e => .error e
          | .ok testResults =>
              let imgs2 := imgs1 ++ (testResults.map Prod.fst).flatten
              let test_input_descriptions := testResults.map Prod.snd
              let llm_prompt :=
                build_llm_prompt puzzle_name train_descriptions test_input_descriptions
              let llm_response := env.llm llm_prompt
              let raw_llm_text := (llm_response.lookup "response").getD (.str "")
              match test_input_descriptions with
              | [] =>
                  let success := false
                  let g2 := log_llm_solution g1 puzzle_name raw_llm_text success
                  .ok ((.dict [("task_name", .str puzzle_name), ("train", pyOfPairs p.train),
                    ("test", pyOfPairs p.test), ("llm_text", raw_llm_text),
                    ("success", .bool success)], 200), g2, imgs2)
              | _ :: _ =>
                  match compare_success raw_llm_text with
                  | .error e => .error e
                  | .ok success =>
                      let g2 := log_llm_solution g1 puzzle_name raw_llm_text success
                      .ok ((.dict [("task_name", .str puzzle_name), ("train", pyOfPairs p.train),
                        ("test", pyOfPairs p.test), ("llm_text", raw_llm_text),
                        ("success", .bool success)], 200), g2, imgs2)

/-- The inner `extract_grid_info` of `process_puzzle_grids` (lines
304-312): size uses `len(grid[0])`, not the max row length. -/
def extract_grid_info (grid : List (List Int)) : String × List Int :=
  (toString grid.length ++ "x" ++ toString (grid.headD []).length, sortedUnique grid.flatten)

/-- The guarded call `self._maybe_call_blip(fn) if fn else "BLIP not
available"` of `process_puzzle_grids` (lines 328-329, 358). -/
def blipOrUnavailable (env : Env) (fn : Option String) : Except PyErr String :=
  match fn with
  | some f => maybe_call_blip env (some f)
  | Option.none => .ok "BLIP not available"

/-- One iteration of the training loop of `process_puzzle_grids` (lines
315-344). -/
def gridsTrainStep (env : Env) (task_name : String) (i : Nat) (ex : ArcPair) :
    Except PyErr (List String × TrainDesc) :=
  let info_in := extract_grid_info ex.input
  let info_out := extract_grid_info ex.output
  let in_fn := generate_png task_name ex.input ("train_input_" ++ toString i)
  let out_fn := generate_png task_name ex.output ("train_output_" ++ toString i)
  match blipOrUnavailable env in_fn with
  | .error e => .error e
  | .ok desc_in =>
      match blipOrUnavailable env out_fn with
      | .error e => .error e
      | .ok desc_out =>
          .ok ([in_fn, out_fn].filterMap id,
            { index := i,
              input_desc := { size := info_in.1, colors := info_in.2, details := desc_in },
              output_desc := { size := info_out.1, colors := info_out.2, details := desc_out } })

/-- One iteration of the test loop of `process_puzzle_grids` (lines 347-369). -/
def gridsTestStep (env : Env) (task_name : String) (j : Nat) (ex : ArcPair) :
    Except PyErr (List String × TestDesc) :=
  let info_in := extract_grid_info ex.input
  let in_fn := generate_png task_name ex.input ("test_input_" ++ toString j)
  match blipOrUnavailable env in_fn with
  | .error e => .error e
  | .ok desc_in =>
      .ok ([in_fn].filterMap id,
        { index := j,
          input_desc := { size := info_in.1, colors := info_in.2, details := desc_in },
          real_output_grid := ex.output })

/-- `TaskManager.process_puzzle_grids` (lines 293-371): builds the
descriptions and generates the images; callers discard the descriptions.
The `skip_test_output_blip` parameter is never used by the source body. -/
def process_puzzle_grids (env : Env) (imgs : List String) (task_name : String)
    (p : PuzzleData) (_skip_test_output_blip : Bool) :
    Except PyErr ((List TrainDesc × List TestDesc) × List String) :=
  match enumMapFromE 0 (gridsTrainStep env task_name) p.train with
  | .error e => .error e
  | .ok trainResults =>
      match enumMapFromE 0 (gridsTestStep env task_name) p.test with
      | .error e => .error e
      | .ok testResults =>
          .ok ((trainResults.map Prod.snd, testResults.map Prod.snd),
            imgs ++ (trainResults.map Prod.fst).flatten ++ (testResults.map Prod.fst).flatten)

/-- `TaskManager.load_arc_task` (lines 59-95): an exception raised by
`process_puzzle_grids` (configured BLIP) propagates. -/
def load_arc_task (env : Env) (g : Graph) (imgs : List String) (task_name : String)
    (reveal_solution : Bool) : Except PyErr ((PyVal × Nat) × Graph × List String) :=
  match env.dataset task_name with
  | .missing =>
      .ok ((errorDict ("Task \x27" ++ task_name ++ "\x27 not found in dataset"), 404), g, imgs)
  | .invalid =>
      .ok ((errorDict ("Invalid JSON format in task \x27" ++ task_name ++ "\x27"), 500), g, imgs)
  | .good p =>
      let g1 := init_puzzle_in_kg g task_name p
      match process_puzzle_grids env imgs task_name p false with
      | .error e => .error e
      | .ok pg =>
          let imgs1 := pg.2
          let correct_solutions : List PyVal :=
            if reveal_solution then p.test.map (fun t => intGrid t.output) else []
          .ok ((.dict [("name", .str task_name), ("train", pyOfPairs p.train),
            ("test", pyOfPairs p.test), ("correct_solutions", .list correct_solutions)], 200),
            g1, imgs1)

end TaskManager

namespace AppV1

/-- The helper `load_arc_task` of src/app.py (lines 34-42): `None` when
the file is missing, otherwise the parsed JSON (a decode failure
propagates as `json.JSONDecodeError`). -/
def load_arc_task (env : Env) (task_name : String) : Except PyErr PyVal :=
  match env.dataset task_name with
  | .missing => .ok .none
  | .invalid => .error .jsonDecodeError
  | .good p => .ok (pyOfPuzzle p)

/-- The route handler `load_arc_test` for GET /api/load-arc-task in
src/app.py (lines 44-53).  `task_name_arg` is the `task_name` query
parameter. -/
def load_arc_test (env : Env) (task_name_arg : Option String) : Except PyErr (PyVal × Nat) :=
  let task_name := task_name_arg.getD "default_task"
  match load_arc_task env task_name with
  | .error e => .error e
  | .ok .none => .ok (errorDict ("Task \x27" ++ task_name ++ "\x27 not found."), 404)
  | .ok task => .ok (.dict [("task_name", .str task_name), ("task_data", task)], 200)

end AppV1

/-- Python `str.lower()` (ASCII case folding, applied per character). -/
def pyLower (s : String) : String := String.mk (s.toList.map Char.toLower)

namespace AppV2

/-- The route handler `load_arc_task` for GET /api/load-arc-task in
src/ARC_Trainer/app.py (lines 63-72): parses the `task_name` and `reveal`
query parameters and delegates to `TaskManager.load_arc_task` (whose
exceptions propagate out of the handler). -/
def load_arc_task (env : Env) (g : Graph) (imgs : List String)
    (task_name_arg : Option String) (reveal_arg : Option String) :
    Except PyErr ((PyVal × Nat) × Graph × List String) :=
  let task_name := task_name_arg.getD "default_task"
  let reveal := pyLower (reveal_arg.getD "false") == "true"
  TaskManager.load_arc_task env g imgs task_name reveal

end AppV2

namespace Config

/-- `Config.ONTOLOGY_DOMAINS` (src/ARC_Trainer/src/config.py line 25). -/
def ONTOLOGY_DOMAINS : List String :=
  ["legal", "healthcare", "education", "ai_ethics", "finance", "warfare", "general"]

end Config

/-- An `OntologyRule` node: `id`, `cnl_rule`, `prolog_rule`, `domain`. -/
structure OntologyRule where
  rid : String
  cnl_rule : String
  prolog_rule : String
  domain : String
deriving DecidableEq

namespace GraphRAG

/-- `GraphRAG.store_ontology` (src/ARC_Trainer/src/graph_rag.py lines
21-42): `MERGE (r:OntologyRule \x7bid: $rule_id\x7d)` then `SET` the three
fields.  The `OntologyRule` nodes of the knowledge graph are modelled as
a list of rules.  No check of `domain` against any allowed set appears in
the source. -/
def store_ontology (kg : List OntologyRule) (rule_id cnl_rule prolog_rule : String)
    (domain : String) : List OntologyRule :=
  if kg.any (fun r => r.rid == rule_id) then
    kg.map (fun r =>
      if r.rid == rule_id then
        { r with cnl_rule := cnl_rule, prolog_rule := prolog_rule, domain := domain }
      else r)
  else
    kg ++ [{ rid := rule_id, cnl_rule := cnl_rule, prolog_rule := prolog_rule,
             domain := domain }]

end GraphRAG

namespace UserFeedback

/-- `MERGE (s:Session \x7bid: $session_id\x7d)`: find the matching node. -/
def sessionNode (g : Graph) (session_id : String) : Option Node :=
  g.nodes.find? (fun n => n.label == "Session" &&
    (match n.props.lookup "id" with
     | some v => v == PyVal.str session_id
     | Option.none => false))

/-- One row of `submit_feedback`'s Cypher statement, for one matched Task
node: merge the Session, create a Feedback node, link both. -/
def submitRow (g : Graph) (session_id : String) (t : Node) (feedback : String)
    (rating : Int) (correction : Option String) : Graph :=
  let sg : Graph × Nat :=
    match sessionNode g session_id with
    | some s => (g, s.nid)
    | Option.none =>
        ({ nodes := g.nodes ++
             [{ nid := g.nextId, label := "Session",
                props := [("id", .str session_id)] }],
           edges := g.edges, nextId := g.nextId + 1 }, g.nextId)
  let g1 := sg.1
  let fnode : Node :=
    { nid := g1.nextId, label := "Feedback",
      props := [("feedback", .str feedback), ("rating", .int rating),
        ("correction", match correction with | some c => .str c | Option.none => .none)] }
  { nodes := g1.nodes ++ [fnode],
    edges := g1.edges ++
      [{ src := sg.2, rtype := "HAS_FEEDBACK", dst := fnode.nid },
       { src := t.nid, rtype := "RECEIVED_FEEDBACK", dst := fnode.nid }],
    nextId := g1.nextId + 1 }

/-- `UserFeedback.submit_feedback` (src/ARC_Trainer/src/user_feedback.py
lines 21-55): `MATCH (t:Task \x7bid: $task_id\x7d)` drives the statement; the
`MERGE`/`CREATE` clauses run once per matched row, and with zero matched
rows nothing is written.  The broad `except` is unreachable in the model,
so the function returns `True`. -/
def submit_feedback (g : Graph) (session_id task_id feedback : String) (rating : Int)
    (correction : Option String) : Graph × Bool :=
  let matched := g.nodes.filter (fun n => n.label == "Task" &&
    (match n.props.lookup "id" with
     | some v => v == PyVal.str task_id
     | Option.none => false))
  (matched.foldl (fun acc t => submitRow acc session_id t feedback rating correction) g, true)

end UserFeedback

-- ---------------------------------------------------------------------
-- C1, C2, C3: the full-puzzle pipeline and its exceptions
-- ---------------------------------------------------------------------

/-- A small well-formed puzzle with one training and one test example. -/
def puzzleOne : PuzzleData :=
  { train := [{ input := [[0]], output := [[0]] }],
    test := [{ input := [[0]], output := [[0]] }] }

/-- A well-formed puzzle whose `test` list is empty. -/
def puzzleNoTest : PuzzleData :=
  { train := [{ input := [[1]], output := [[1]] }], test := [] }

/-- Environment for C1: the LLM replies with a JSON grid, so
`parse_llm_guess` succeeds and control reaches `self.compare_grids`. -/
def envC1 : Env :=
  { dataset := fun n => if n == "puzzle1" then .good puzzleOne else .missing,
    blipConfigured := false,
    llm := fun _ => [("response", .str "[[0]]")] }

/-- C1 (code bug): with a puzzle that has a test example and an LLM reply
that parses to a grid, `_process_full_puzzle_flow` does not compare the
grids and return `success` - it raises `AttributeError`, because
`self.compare_grids` (task_manager.py line 212) is defined nowhere in the
repository.  The claimed plain-equality comparison never happens. -/
theorem C1_compare_grids_attribute_error :
    TaskManager.process_full_puzzle_flow envC1 Graph.empty [] "puzzle1" =
      .error (.attributeError "compare_grids") := by rfl

/-- C2 (code bug): `parse_llm_guess` returns the decoded list for a JSON
list reply and the fixed message for an empty reply, but on the regex
path the claim describes (an `Output Grid Size`/`Colors Present` reply)
it raises `NameError` instead of returning the extracted grid, because
task_manager.py never imports `re`. -/
theorem C2_parse_llm_guess_nameerror :
    "re" ∉ TaskManager.importedNames ∧
    TaskManager.parse_llm_guess (.str "Output Grid Size: 2x2\nColors Present: [1, 2]") =
      .error (.nameError "re") ∧
    TaskManager.parse_llm_guess (.str "[[1, 2]]") = .ok (.list [ .list [ .int 1, .int 2 ] ]) ∧
    TaskManager.parse_llm_guess (.str "") =
      .ok (.str "LLM response was empty or not in expected format.") :=
  ⟨by decide, rfl, rfl, rfl⟩

/-- Environment for C3's counterexample: the LLM replies with prose. -/
def envC3 : Env :=
  { dataset := fun n => if n == "puzzle1" then .good puzzleOne else .missing,
    blipConfigured := false,
    llm := fun _ => [("response", .str "The rule seems to be identity.")] }

/-- Counterexample to C3 as stated: for a puzzle file whose JSON is a dict
with `train` and `test` keys (and one test example), the call does not
return a `(response, status)` pair - a `NameError` from the unimported
`re` module propagates out of `_process_full_puzzle_flow`. -/
theorem C3_exception_propagates :
    TaskManager.process_full_puzzle_flow envC3 Graph.empty [] "puzzle1" =
      .error (.nameError "re") := by rfl

theorem compare_success_error (raw : PyVal) :
    ∃ e, TaskManager.compare_success raw = .error e := by
  unfold TaskManager.compare_success
  cases TaskManager.parse_llm_guess raw with
  | error e => exact ⟨e, rfl⟩
  | ok v => exact ⟨.attributeError "compare_grids", rfl⟩

theorem exceptMatchError {α : Type} (r : Except PyErr Bool) (h : ∃ e, r = .error e)
    (f : Bool → Except PyErr α) :
    ∃ e, (match r with | .error e => .error e | .ok b => f b) = Except.error e := by
  obtain ⟨e, rfl⟩ := h
  exact ⟨e, rfl⟩

theorem enumMapFromE_ok_length {α β : Type} (f : Nat → α → Except PyErr β) :
    ∀ (i : Nat) (l : List α) (bs : List β), enumMapFromE i f l = .ok bs →
      bs.length = l.length := by
  intro i l
  induction l generalizing i with
  | nil =>
      intro bs h
      simp only [enumMapFromE] at h
      obtain rfl := (Except.ok.inj h).symm
      rfl
  | cons a l ih =>
      intro bs h
      simp only [enumMapFromE] at h
      cases hfa : f i a with
      | error e => rw [hfa] at h; exact absurd h (by simp)
      | ok b =>
          rw [hfa] at h
          cases hrec : enumMapFromE (i + 1) f l with
          | error e => rw [hrec] at h; exact absurd h (by simp)
          | ok bs' =>
              rw [hrec] at h
              obtain rfl := (Except.ok.inj h).symm
              simp [ih (i + 1) bs' hrec]

/-- C3 amended: only the puzzle-file loading step of
`_process_full_puzzle_flow` catches its own exceptions: a missing file
returns `({"error": ...}, 404)` and an invalid or misshapen file returns
`({"error": ...}, 500)`, without raising.  The later steps do not catch
theirs: for every puzzle file whose JSON is a dict with `train` and
`test` keys and at least one test example, the call propagates an
exception to the caller (a `NameError` for `base64` when BLIP is
configured and a grid image was generated, otherwise a `NameError` for
`re` or an `AttributeError` for the undefined `compare_grids`). -/
theorem C3_amended_flow_error_handling :
    (∀ (env : Env) (g : Graph) (imgs : List String) (name : String),
      env.dataset name = .missing →
      TaskManager.process_full_puzzle_flow env g imgs name =
        .ok ((errorDict ("Task \x27" ++ name ++ "\x27 not found in dataset"), 404), g, imgs)) ∧
    (∀ (env : Env) (g : Graph) (imgs : List String) (name : String),
      env.dataset name = .invalid →
      TaskManager.process_full_puzzle_flow env g imgs name =
        .ok ((errorDict ("Invalid JSON format in \x27" ++ name ++ "\x27"), 500), g, imgs)) ∧
    (∀ (env : Env) (g : Graph) (imgs : List String) (name : String) (p : PuzzleData),
      env.dataset name = .good p → p.test ≠ [] →
      ∃ e, TaskManager.process_full_puzzle_flow env g imgs name = .error e) := by
  refine ⟨?_, ?_, ?_⟩
  · intro env g imgs name h
    unfold TaskManager.process_full_puzzle_flow
    simp only [h]
  · intro env g imgs name h
    unfold TaskManager.process_full_puzzle_flow
    simp only [h]
  · intro env g imgs name p h ht
    obtain ⟨t0, ts, hts⟩ := List.exists_cons_of_ne_nil ht
    unfold TaskManager.process_full_puzzle_flow
    simp only [h]
    cases htr : enumMapFromE 0 (TaskManager.trainStep env name) p.train with
    | error e => exact ⟨e, by simp only [htr]⟩
    | ok tr =>
        cases hte : enumMapFromE 0 (TaskManager.testStep env name) p.test with
        | error e => exact ⟨e, by simp only [htr, hte]⟩
        | ok te =>
            have hlen := enumMapFromE_ok_length _ 0 p.test te hte
            have hne : te ≠ [] := by
              intro h0
              rw [h0, hts] at hlen
              exact absurd hlen.symm (by simp)
            obtain ⟨d0, ds, hds⟩ := List.exists_cons_of_ne_nil hne
            simp only [htr, hte, hds, List.map_cons]
            exact exceptMatchError _ (compare_success_error _) _

/-- A dataset directory with a file that fails `json.load` or
`validate_task_data`. -/
def envInvalid : Env :=
  { dataset := fun n => if n == "broken" then .invalid else .missing,
    blipConfigured := false, llm := fun _ => [] }

/-- A configured-BLIP deployment of the same dataset as `envC3`. -/
def envBlipOn : Env :=
  { dataset := fun n => if n == "puzzle1" then .good puzzleOne else .missing,
    blipConfigured := true, llm := fun _ => [("response", .str "[[0]]")] }

/-- Witness for the amended C3: the two catching branches at concrete
environments, and the propagating branch both without BLIP (the `re`
path) and with BLIP configured (the `base64` path). -/
theorem C3_amended_flow_error_handling_witness :
    TaskManager.process_full_puzzle_flow envC3 Graph.empty [] "nope" =
      .ok ((errorDict ("Task \x27nope\x27 not found in dataset"), 404), Graph.empty, []) ∧
    TaskManager.process_full_puzzle_flow envInvalid Graph.empty [] "broken" =
      .ok ((errorDict ("Invalid JSON format in \x27broken\x27"), 500), Graph.empty, []) ∧
    (∃ e, TaskManager.process_full_puzzle_flow envC3 Graph.empty [] "puzzle1" = .error e) ∧
    (∃ e, TaskManager.process_full_puzzle_flow envBlipOn Graph.empty [] "puzzle1" = .error e) :=
  ⟨C3_amended_flow_error_handling.1 envC3 Graph.empty [] "nope" rfl,
   C3_amended_flow_error_handling.2.1 envInvalid Graph.empty [] "broken" rfl,
   C3_amended_flow_error_handling.2.2 envC3 Graph.empty [] "puzzle1" puzzleOne rfl
     (by simp [puzzleOne]),
   C3_amended_flow_error_handling.2.2 envBlipOn Graph.empty [] "puzzle1" puzzleOne rfl
     (by simp [puzzleOne])⟩

-- ---------------------------------------------------------------------
-- C4, C5: the two /api/load-arc-task revisions
-- ---------------------------------------------------------------------

theorem blipOrUnavailable_ok (env : Env) (hb : env.blipConfigured = false)
    (fn : Option String) : ∃ s, TaskManager.blipOrUnavailable env fn = .ok s := by
  cases fn with
  | none => exact ⟨_, rfl⟩
  | some f =>
      refine ⟨"BLIP not configured.", ?_⟩
      simp [TaskManager.blipOrUnavailable, TaskManager.maybe_call_blip, hb]

theorem gridsTrainStep_ok (env : Env) (hb : env.blipConfigured = false)
    (tn : String) (i : Nat) (ex : ArcPair) :
    ∃ r, TaskManager.gridsTrainStep env tn i ex = .ok r := by
  obtain ⟨s1, h1⟩ := blipOrUnavailable_ok env hb
    (TaskManager.generate_png tn ex.input ("train_input_" ++ toString i))
  obtain ⟨s2, h2⟩ := blipOrUnavailable_ok env hb
    (TaskManager.generate_png tn ex.output ("train_output_" ++ toString i))
  unfold TaskManager.gridsTrainStep
  simp only [h1, h2]
  exact ⟨_, rfl⟩

theorem gridsTestStep_ok (env : Env) (hb : env.blipConfigured = false)
    (tn : String) (j : Nat) (ex : ArcPair) :
    ∃ r, TaskManager.gridsTestStep env tn j ex = .ok r := by
  obtain ⟨s1, h1⟩ := blipOrUnavailable_ok env hb
    (TaskManager.generate_png tn ex.input ("test_input_" ++ toString j))
  unfold TaskManager.gridsTestStep
  simp only [h1]
  exact ⟨_, rfl⟩

theorem enumMapFromE_ok {α β : Type} (f : Nat → α → Except PyErr β)
    (hf : ∀ i a, ∃ b, f i a = .ok b) :
    ∀ (i : Nat) (l : List α), ∃ bs, enumMapFromE i f l = .ok bs := by
  intro i l
  induction l generalizing i with
  | nil => exact ⟨[], rfl⟩
  | cons a l ih =>
      obtain ⟨b, hb⟩ := hf i a
      obtain ⟨bs, hbs⟩ := ih (i + 1)
      exact ⟨b :: bs, by simp [enumMapFromE, hb, hbs]⟩

theorem process_puzzle_grids_ok (env : Env) (hb : env.blipConfigured = false)
    (imgs : List String) (tn : String) (p : PuzzleData) :
    ∃ r, TaskManager.process_puzzle_grids env imgs tn p false = .ok r := by
  obtain ⟨tr, htr⟩ := enumMapFromE_ok _ (fun i a => gridsTrainStep_ok env hb tn i a) 0 p.train
  obtain ⟨te, hte⟩ := enumMapFromE_ok _ (fun j a => gridsTestStep_ok env hb tn j a) 0 p.test
  refine ⟨((tr.map Prod.snd, te.map Prod.snd),
    imgs ++ (tr.map Prod.fst).flatten ++ (te.map Prod.fst).flatten), ?_⟩
  unfold TaskManager.process_puzzle_grids
  simp only [htr, hte]

/-- C4: the two revisions of GET /api/load-arc-task are not equivalent:
in any deployment without a configured BLIP endpoint (the default, since
`HF_BLIP_ENDPOINT`/`HF_BEARER_TOKEN` default to empty) and for any
existing well-formed task, src/app.py's handler returns a body with keys
`task_name`/`task_data` (the raw puzzle JSON), while
src/ARC_Trainer/app.py's handler returns `TaskManager.load_arc_task`'s
body with keys `name`/`train`/`test`/`correct_solutions`; the two
response bodies differ in shape.  (With BLIP configured the second
handler does not even answer: it raises the `base64` `NameError`.) -/
theorem C4_load_arc_task_revisions_differ (env : Env) (hb : env.blipConfigured = false)
    (g : Graph) (imgs : List String) (name : String) (p : PuzzleData)
    (h : env.dataset name = .good p) :
    ∃ body1 body2 g2 imgs2,
      AppV1.load_arc_test env (some name) = .ok (body1, 200) ∧
      pyKeys body1 = ["task_name", "task_data"] ∧
      AppV2.load_arc_task env g imgs (some name) Option.none =
        .ok ((body2, 200), g2, imgs2) ∧
      pyKeys body2 = ["name", "train", "test", "correct_solutions"] ∧
      pyKeys body1 ≠ pyKeys body2 := by
  obtain ⟨pg, hpg⟩ := process_puzzle_grids_ok env hb imgs name p
  refine ⟨.dict [("task_name", .str name), ("task_data", pyOfPuzzle p)],
    .dict [("name", .str name), ("train", pyOfPairs p.train), ("test", pyOfPairs p.test),
      ("correct_solutions", .list [])],
    TaskManager.init_puzzle_in_kg g name p, pg.2, ?_, rfl, ?_, rfl,
    by simp [pyKeys]⟩
  · unfold AppV1.load_arc_test AppV1.load_arc_task
    simp only [h, Option.getD_some, pyOfPuzzle]
  · unfold AppV2.load_arc_task TaskManager.load_arc_task
    simp only [h, Option.getD_some, Option.getD_none, hpg]
    rfl

/-- Environment for the C4 witness. -/
def envC4 : Env :=
  { dataset := fun n => if n == "taskA" then .good puzzleOne else .missing,
    blipConfigured := false, llm := fun _ => [] }

/-- Witness for C4 at a concrete (BLIP-off) environment and task. -/
theorem C4_load_arc_task_revisions_differ_witness :
    ∃ body1 body2 g2 imgs2,
      AppV1.load_arc_test envC4 (some "taskA") = .ok (body1, 200) ∧
      pyKeys body1 = ["task_name", "task_data"] ∧
      AppV2.load_arc_task envC4 Graph.empty [] (some "taskA") Option.none =
        .ok ((body2, 200), g2, imgs2) ∧
      pyKeys body2 = ["name", "train", "test", "correct_solutions"] ∧
      pyKeys body1 ≠ pyKeys body2 :=
  C4_load_arc_task_revisions_differ envC4 rfl Graph.empty [] "taskA" puzzleOne rfl

/-- C5: for a task name with no JSON file in the dataset directory, the
src/app.py handler answers `{"error": ...}` with 404, and
`TaskManager.load_arc_task` returns `({"error": ...}, 404)` with the
knowledge graph and generated images untouched (the early return at
lines 66-68 precedes `init_puzzle_in_kg` and `process_puzzle_grids`). -/
theorem C5_missing_task_load_fails_cleanly (env : Env) (g : Graph) (imgs : List String)
    (name : String) (h : env.dataset name = .missing) :
    AppV1.load_arc_test env (some name) =
      .ok (errorDict ("Task \x27" ++ name ++ "\x27 not found."), 404) ∧
    ∀ reveal, TaskManager.load_arc_task env g imgs name reveal =
      .ok ((errorDict ("Task \x27" ++ name ++ "\x27 not found in dataset"), 404), g, imgs) := by
  constructor
  · unfold AppV1.load_arc_test AppV1.load_arc_task
    simp only [h, Option.getD_some]
  · intro reveal
    unfold TaskManager.load_arc_task
    simp only [h]

/-- An empty dataset directory. -/
def envMissing : Env :=
  { dataset := fun _ => .missing, blipConfigured := false, llm := fun _ => [] }

/-- Witness for C5 at a concrete environment and task name. -/
theorem C5_missing_task_load_fails_cleanly_witness :
    AppV1.load_arc_test envMissing (some "ghost") =
      .ok (errorDict ("Task \x27ghost\x27 not found."), 404) ∧
    ∀ reveal, TaskManager.load_arc_task envMissing Graph.empty [] "ghost" reveal =
      .ok ((errorDict ("Task \x27ghost\x27 not found in dataset"), 404), Graph.empty, []) :=
  C5_missing_task_load_fails_cleanly envMissing Graph.empty [] "ghost" rfl

-- ---------------------------------------------------------------------
-- C6: store_ontology ignores the declared domain set
-- ---------------------------------------------------------------------

/-- C6: `GraphRAG.store_ontology` enforces uniqueness only via `MERGE` on
the `id` property and performs no membership check of `domain` against
`Config.ONTOLOGY_DOMAINS`: every domain string is written unchanged (an
existing rule with the id is updated in place, otherwise exactly one rule
is appended), and in particular a domain outside the declared 7-item set
is stored verbatim. -/
theorem C6_store_ontology_no_domain_validation :
    (∀ (kg : List OntologyRule) (rule_id cnl prolog domain : String),
      ∃ r ∈ GraphRAG.store_ontology kg rule_id cnl prolog domain,
        r.rid = rule_id ∧ r.domain = domain) ∧
    (∀ (kg : List OntologyRule) (rule_id cnl prolog domain : String),
      (∀ r ∈ kg, r.rid ≠ rule_id) →
      GraphRAG.store_ontology kg rule_id cnl prolog domain =
        kg ++ [{ rid := rule_id, cnl_rule := cnl, prolog_rule := prolog, domain := domain }]) ∧
    (∀ (kg : List OntologyRule) (rule_id cnl prolog domain : String),
      (∃ r ∈ kg, r.rid = rule_id) →
      (GraphRAG.store_ontology kg rule_id cnl prolog domain).length = kg.length) ∧
    (∃ domain, domain ∉ Config.ONTOLOGY_DOMAINS ∧
      GraphRAG.store_ontology [] "rule-1" "c" "pr" domain =
        [{ rid := "rule-1", cnl_rule := "c", prolog_rule := "pr", domain := domain }]) := by
  refine ⟨?_, ?_, ?_, ?_⟩
  · intro kg rule_id cnl prolog domain
    unfold GraphRAG.store_ontology
    by_cases hany : kg.any (fun r => r.rid == rule_id)
    · rw [if_pos hany]
      obtain ⟨r, hr, hrid⟩ := List.any_eq_true.mp hany
      have hmem := List.mem_map_of_mem (fun r : OntologyRule =>
        if r.rid == rule_id then
          { r with cnl_rule := cnl, prolog_rule := prolog, domain := domain }
        else r) hr
      simp only [hrid, if_true] at hmem
      exact ⟨_, hmem, beq_iff_eq.mp hrid, rfl⟩
    · rw [if_neg hany]
      exact ⟨_, List.mem_append_right _ (List.mem_singleton.mpr rfl), rfl, rfl⟩
  · intro kg rule_id cnl prolog domain hno
    unfold GraphRAG.store_ontology
    have hfalse : kg.any (fun r => r.rid == rule_id) = false := by
      rw [List.any_eq_false]
      intro r hr
      simpa using hno r hr
    rw [hfalse]
    simp
  · intro kg rule_id cnl prolog domain hex
    unfold GraphRAG.store_ontology
    obtain ⟨r, hr, hrid⟩ := hex
    have htrue : kg.any (fun r => r.rid == rule_id) = true := by
      rw [List.any_eq_true]
      exact ⟨r, hr, by simpa using hrid⟩
    rw [htrue]
    simp
  · exact ⟨"quack", by decide, rfl⟩

/-- Witness for C6 at concrete inputs (including a domain outside the
7-item allowed set). -/
theorem C6_store_ontology_no_domain_validation_witness :
    (∃ r ∈ GraphRAG.store_ontology [] "r0" "c0" "p0" "quack",
        r.rid = "r0" ∧ r.domain = "quack") ∧
    GraphRAG.store_ontology [] "r0" "c0" "p0" "quack" =
      [{ rid := "r0", cnl_rule := "c0", prolog_rule := "p0", domain := "quack" }] :=
  ⟨C6_store_ontology_no_domain_validation.1 [] "r0" "c0" "p0" "quack",
   C6_store_ontology_no_domain_validation.2.1 [] "r0" "c0" "p0" "quack" (by simp)⟩

-- ---------------------------------------------------------------------
-- C7: Task nodes created by init_puzzle_in_kg never receive feedback
-- ---------------------------------------------------------------------

/-- Graph states whose `Task` nodes were all created by
`TaskManager.init_puzzle_in_kg` (starting from a state with no Task
nodes at all). -/
inductive TaskInitOnly : Graph → Prop
  | base (g : Graph) (h : ∀ n ∈ g.nodes, n.label ≠ "Task") : TaskInitOnly g
  | step (g : Graph) (name : String) (p : PuzzleData) (h : TaskInitOnly g) :
      TaskInitOnly (TaskManager.init_puzzle_in_kg g name p)

theorem taskInitOnly_no_id {g : Graph} (hg : TaskInitOnly g) :
    ∀ n ∈ g.nodes, n.label = "Task" → n.props.lookup "id" = Option.none := by
  induction hg with
  | base g h =>
      intro n hn hlab
      exact absurd hlab (h n hn)
  | step g name p _ ih =>
      intro n hn hlab
      unfold TaskManager.init_puzzle_in_kg at hn
      by_cases hex : g.nodes.any (fun m => isTaskNamed m name)
      · rw [if_pos hex] at hn
        exact ih n hn hlab
      · rw [if_neg hex] at hn
        simp only [List.mem_append, List.mem_singleton] at hn
        rcases hn with hn | rfl
        · exact ih n hn hlab
        · rfl

/-- C7: `init_puzzle_in_kg` keys Task nodes only by `name` (no `id`
property), while `submit_feedback` matches Task nodes by `id`; so in
every graph whose Task nodes all come from `init_puzzle_in_kg`,
`submit_feedback` matches no Task row, attaches no `RECEIVED_FEEDBACK`
relationship (indeed changes nothing), and still returns `True`. -/
theorem C7_submit_feedback_never_links_init_tasks (g : Graph) (hg : TaskInitOnly g)
    (session_id task_id feedback : String) (rating : Int) (correction : Option String) :
    UserFeedback.submit_feedback g session_id task_id feedback rating correction = (g, true) ∧
    (UserFeedback.submit_feedback g session_id task_id feedback rating correction).1.edges =
      g.edges := by
  have hfil : g.nodes.filter (fun n => n.label == "Task" &&
      (match n.props.lookup "id" with
       | some v => v == PyVal.str task_id
       | Option.none => false)) = [] := by
    rw [List.filter_eq_nil_iff]
    intro n hn
    by_cases hlab : n.label = "Task"
    · rw [taskInitOnly_no_id hg n hn hlab]
      simp
    · have : (n.label == "Task") = false := beq_eq_false_iff_ne.mpr hlab
      simp [this]
  have h1 : UserFeedback.submit_feedback g session_id task_id feedback rating correction =
      (g, true) := by
    unfold UserFeedback.submit_feedback
    rw [hfil]
    rfl
  exact ⟨h1, by rw [h1]⟩

/-- Witness for C7 on a concrete graph reachable from the empty state. -/
theorem C7_submit_feedback_never_links_init_tasks_witness :
    UserFeedback.submit_feedback
        (TaskManager.init_puzzle_in_kg Graph.empty "puzzleX" puzzleNoTest)
        "session-1" "task-1" "unclear" 3 Option.none =
      (TaskManager.init_puzzle_in_kg Graph.empty "puzzleX" puzzleNoTest, true) :=
  (C7_submit_feedback_never_links_init_tasks _
    (TaskInitOnly.step Graph.empty "puzzleX" puzzleNoTest
      (TaskInitOnly.base Graph.empty (by simp [Graph.empty])))
    "session-1" "task-1" "unclear" 3 Option.none).1
